import Mathlib

/-!
Shallow embedding of the OrbitBank_v2 ledger core.

The definitions below are translated from the repository's source:
  * `src/app/model_enums/model_enums.py` — the enumerations;
  * `src/app/models/models.py` — the `Account`, `Transaction`, `Entry`,
    `Transfer` row types (only the fields the ledger operations read or
    write are kept);
  * `src/app/api/accounts.py` — `deposit_to_account`,
    `withdraw_from_account`, `get_account_statement`,
    `get_account_transactions`;
  * `src/app/api/transfers.py` — `create_new_transfer`;
  * `src/app/services/notification_service_sns.py` —
    `_validate_phone_number`;
  * `src/app/schemas/schemas.py` — the request-schema validation applied
    before a handler runs.

Modelling conventions:
  * Python `Decimal` amounts (fixed-point, 4 fraction digits) become
    `Int` values in minor units (scaled by 10^4): the operations the
    core uses — `+`, `-`, unary `-`, `<` — are exact on `Decimal` and
    carried faithfully to the scaled integers;
  * timestamps become `Nat` microseconds since the epoch
    (`datetime.max.time()` is 23:59:59.999999, i.e. microsecond
    resolution, which the statement date filters depend on);
  * the persistent database state is a `DB` record of row lists; a
    SQLAlchemy session's pending adds/mutations are the difference
    between the input `DB` and the candidate committed `DB`, and
    `session.commit()` either installs the committed `DB` atomically or
    raises, in which case `session.rollback()` restores the input `DB`;
  * an exception raised by `await session.commit()` is modelled by the
    parameter `commitExn : Option String` (`some msg` = the commit
    raised with message `msg`); an exception raised later inside the
    same `try:` block — by `session.refresh`, notification message
    formatting, or `background_tasks.add_task` — is modelled by
    `postCommitExn : Option String`.  Both are caught by the handler's
    `except Exception` clause;
  * `HTTPException` becomes the `HTTPError` record (status code and
    detail string);
  * Python `re`'s `\d` on `str` patterns matches any Unicode decimal
    digit (category Nd); it is modelled by `isUnicodeDigit`, the
    explicit list of Nd code-point ranges (Unicode 14.0.0).
-/

namespace OrbitBank

/-- From `model_enums.py`: `CurrencyCode`, the fixed ISO-4217 subset. -/
inductive CurrencyCode where
  | INR | USD | EUR | GBP | JPY | AUD | CAD | SGD | CHF | CNY
deriving DecidableEq, Repr

/-- From `model_enums.py`: `TransactionType`. -/
inductive TransactionType where
  | DEPOSIT | WITHDRAWAL | TRANSFER | PAYMENT | FEE | INTEREST
deriving DecidableEq, Repr

/-- From `model_enums.py`: `TransactionStatus`. -/
inductive TransactionStatus where
  | PENDING | COMPLETED | FAILED | CANCELED | PROCESSING
deriving DecidableEq, Repr

/-- From `models.py` `class Account`: the fields the ledger operations
read or write (`id`, `account_number`, `balance`, `currency_code`). -/
structure Account where
  id : Nat
  account_number : String
  balance : Int
  currency_code : CurrencyCode
deriving DecidableEq, Repr

/-- From `models.py` `class Transaction`: the fields the ledger
operations set (`id`, `type`, `status`, `description`, `initiated_at`,
`completed_at`). -/
structure Transaction where
  id : Nat
  type : TransactionType
  status : TransactionStatus
  description : String
  initiated_at : Nat
  completed_at : Option Nat
deriving DecidableEq, Repr

/-- From `models.py` `class Entry`: the append-only ledger record. -/
structure Entry where
  id : Nat
  account_id : Nat
  amount : Int
  currency_code : CurrencyCode
  transaction_id : Option Nat
  created_at : Nat
deriving DecidableEq, Repr

/-- From `models.py` `class Transfer`: the 1:1 annotation of a
transfer-type transaction. -/
structure Transfer where
  id : Nat
  transaction_id : Nat
  from_account_id : Nat
  to_account_id : Nat
  amount : Int
  currency_code : CurrencyCode
deriving DecidableEq, Repr

/-- The persistent database state: the four row collections the ledger
operations touch. -/
structure DB where
  accounts : List Account
  transactions : List Transaction
  entries : List Entry
  transfers : List Transfer
deriving DecidableEq, Repr

/-- A FastAPI `HTTPException`: status code and detail string. -/
structure HTTPError where
  status_code : Nat
  detail : String
deriving DecidableEq, Repr

/-- Primary-key lookup of an account (`session.get(Account, account_id)`
or `select(Account).where(Account.id == account_id)`). -/
def findAccount (db : DB) (account_id : Nat) : Option Account :=
  db.accounts.find? (fun a => a.id == account_id)

/-- The stored balance of an account, when it exists. -/
def getBalance (db : DB) (account_id : Nat) : Option Int :=
  (findAccount db account_id).map (fun a => a.balance)

/-- Apply `f` to the balance of every account row whose id is
`account_id` (the ORM mutation `account.balance = f(account.balance)`
flushed at commit). -/
def mapBalance (accounts : List Account) (account_id : Nat) (f : Int → Int) :
    List Account :=
  accounts.map (fun a =>
    if a.id == account_id then { a with balance := f a.balance } else a)

/-- Autoincrement id assigned to a new `Transaction` at `session.flush()`. -/
def freshTransactionId (db : DB) : Nat := db.transactions.length + 1

/-- Autoincrement id assigned to a new `Entry` at commit. -/
def freshEntryId (db : DB) : Nat := db.entries.length + 1

/-- Autoincrement id assigned to a new `Transfer` at commit. -/
def freshTransferId (db : DB) : Nat := db.transfers.length + 1

/-- From `transfers.py` `create_new_transfer` (POST `/transfers/new`).

The handler: look up both accounts (404 naming the missing one), reject
insufficient funds then currency mismatch (400 each), otherwise build a
PENDING `Transaction`, flush for its id, add the `Transfer`, the debit
`Entry` (`-amount` on the source) and the credit `Entry` (`+amount` on
the destination), decrement the source balance and increment the
destination balance, mark the transaction COMPLETED, and commit.  When
`from_account_id = to_account_id` the two fetched ORM objects are the
same identity-map object, so the two balance mutations compose on one
row — `mapBalance` applied twice reproduces exactly that.  The `except`
clause catches an exception raised anywhere inside the `try:` (the
commit itself, or the post-commit refresh/notification section), rolls
back, and raises a generic 500. -/
def create_new_transfer (db : DB) (from_account_id to_account_id : Nat)
    (amount : Int) (description : Option String) (now : Nat)
    (commitExn postCommitExn : Option String) :
    Except HTTPError Transfer × DB :=
  match findAccount db from_account_id with
  | none => (.error ⟨404, s!"Source account {from_account_id} not found"⟩, db)
  | some from_account =>
    match findAccount db to_account_id with
    | none =>
        (.error ⟨404, s!"Destination account {to_account_id} not found"⟩, db)
    | some to_account =>
      if from_account.balance < amount then
        (.error ⟨400, "Insufficient funds in source account"⟩, db)
      else if from_account.currency_code ≠ to_account.currency_code then
        (.error
          ⟨400, "Transfers between different currencies not currently supported"⟩,
          db)
      else
        let txid := freshTransactionId db
        let from_number := from_account.account_number
        let to_number := to_account.account_number
        let transaction : Transaction :=
          { id := txid
            type := .TRANSFER
            status := .COMPLETED
            description := description.getD
              s!"Transfer from {from_number} to {to_number}"
            initiated_at := now
            completed_at := some now }
        let transfer : Transfer :=
          { id := freshTransferId db
            transaction_id := txid
            from_account_id := from_account_id
            to_account_id := to_account_id
            amount := amount
            currency_code := from_account.currency_code }
        let debit_entry : Entry :=
          { id := freshEntryId db
            account_id := from_account_id
            amount := -amount
            currency_code := from_account.currency_code
            transaction_id := some txid
            created_at := now }
        let credit_entry : Entry :=
          { id := freshEntryId db + 1
            account_id := to_account_id
            amount := amount
            currency_code := to_account.currency_code
            transaction_id := some txid
            created_at := now }
        let committed : DB :=
          { accounts :=
              mapBalance
                (mapBalance db.accounts from_account_id (fun b => b - amount))
                to_account_id (fun b => b + amount)
            transactions := db.transactions ++ [transaction]
            entries := db.entries ++ [debit_entry, credit_entry]
            transfers := db.transfers ++ [transfer] }
        match commitExn with
        | some _ =>
            (.error
              ⟨500, "Error processing transfer: An internal error occurred."⟩,
              db)
        | none =>
          match postCommitExn with
          | some _ =>
              (.error
                ⟨500, "Error processing transfer: An internal error occurred."⟩,
                committed)
          | none => (.ok transfer, committed)

/-- From `schemas.py` `class DepositRequest`: `amount: Decimal` with no
positivity constraint, so request validation accepts every amount. -/
def DepositRequest_amount_ok (amount : Int) : Bool :=
  let _ := amount
  true

/-- From `schemas.py` `class NewTransferRequest`:
`amount: Decimal = Field(..., gt=0)`, so request validation accepts
exactly the strictly positive amounts. -/
def NewTransferRequest_amount_ok (amount : Int) : Bool :=
  0 < amount

/-- From `accounts.py` `deposit_to_account` (POST
`/accounts/{account_id}/deposit`).

The handler: look up the account (404), build a COMPLETED `Transaction`,
flush for its id, add the `Entry` with the (unchecked) requested amount,
increment the balance, and commit.  The `except` clause catches an
exception anywhere inside the `try:` (the commit, or the post-commit
refresh/notification section), rolls back, and raises a generic 500. -/
def deposit_to_account (db : DB) (account_id : Nat) (amount : Int)
    (description : Option String) (now : Nat)
    (commitExn postCommitExn : Option String) :
    Except HTTPError Transaction × DB :=
  match findAccount db account_id with
  | none => (.error ⟨404, s!"Account {account_id} not found"⟩, db)
  | some db_account =>
    let number := db_account.account_number
    let transaction : Transaction :=
      { id := freshTransactionId db
        type := .DEPOSIT
        status := .COMPLETED
        description := description.getD s!"Deposit to account {number}"
        initiated_at := now
        completed_at := some now }
    let entry : Entry :=
      { id := freshEntryId db
        account_id := account_id
        amount := amount
        currency_code := db_account.currency_code
        transaction_id := some transaction.id
        created_at := now }
    let committed : DB :=
      { accounts := mapBalance db.accounts account_id (fun b => b + amount)
        transactions := db.transactions ++ [transaction]
        entries := db.entries ++ [entry]
        transfers := db.transfers }
    match commitExn with
    | some _ =>
        (.error ⟨500, "Error processing deposit: An internal error occurred."⟩,
          db)
    | none =>
      match postCommitExn with
      | some _ =>
          (.error
            ⟨500, "Error processing deposit: An internal error occurred."⟩,
            committed)
      | none => (.ok transaction, committed)

/-- From `accounts.py` `withdraw_from_account` (POST
`/accounts/{account_id}/withdraw`).

The handler: look up the account (404), reject when
`db_account.balance < amount` with 400 "Insufficient funds" before any
row is built, otherwise build a COMPLETED `Transaction`, add the `Entry`
with amount `-amount`, decrement the balance, and commit; the `except`
clause behaves as in `deposit_to_account`. -/
def withdraw_from_account (db : DB) (account_id : Nat) (amount : Int)
    (description : Option String) (now : Nat)
    (commitExn postCommitExn : Option String) :
    Except HTTPError Transaction × DB :=
  match findAccount db account_id with
  | none => (.error ⟨404, s!"Account {account_id} not found"⟩, db)
  | some db_account =>
    if db_account.balance < amount then
      (.error ⟨400, "Insufficient funds"⟩, db)
    else
      let number := db_account.account_number
      let transaction : Transaction :=
        { id := freshTransactionId db
          type := .WITHDRAWAL
          status := .COMPLETED
          description := description.getD s!"Withdrawal from account {number}"
          initiated_at := now
          completed_at := some now }
      let entry : Entry :=
        { id := freshEntryId db
          account_id := account_id
          amount := -amount
          currency_code := db_account.currency_code
          transaction_id := some transaction.id
          created_at := now }
      let committed : DB :=
        { accounts := mapBalance db.accounts account_id (fun b => b - amount)
          transactions := db.transactions ++ [transaction]
          entries := db.entries ++ [entry]
          transfers := db.transfers }
      match commitExn with
      | some _ =>
          (.error
            ⟨500, "Error processing withdrawal: An internal error occurred."⟩,
            db)
      | none =>
        match postCommitExn with
        | some _ =>
            (.error
              ⟨500, "Error processing withdrawal: An internal error occurred."⟩,
              committed)
        | none => (.ok transaction, committed)

/-- The code-point ranges of the Unicode general category Nd (decimal
digit), Unicode 14.0.0 — the character class Python `re`'s `\d` matches
on `str` patterns. -/
def ndDigitRanges : List (Nat × Nat) :=
  [ (0x30, 0x39), (0x660, 0x669), (0x6f0, 0x6f9), (0x7c0, 0x7c9)
  , (0x966, 0x96f), (0x9e6, 0x9ef), (0xa66, 0xa6f), (0xae6, 0xaef)
  , (0xb66, 0xb6f), (0xbe6, 0xbef), (0xc66, 0xc6f), (0xce6, 0xcef)
  , (0xd66, 0xd6f), (0xde6, 0xdef), (0xe50, 0xe59), (0xed0, 0xed9)
  , (0xf20, 0xf29), (0x1040, 0x1049), (0x1090, 0x1099), (0x17e0, 0x17e9)
  , (0x1810, 0x1819), (0x1946, 0x194f), (0x19d0, 0x19d9), (0x1a80, 0x1a89)
  , (0x1a90, 0x1a99), (0x1b50, 0x1b59), (0x1bb0, 0x1bb9), (0x1c40, 0x1c49)
  , (0x1c50, 0x1c59), (0xa620, 0xa629), (0xa8d0, 0xa8d9), (0xa900, 0xa909)
  , (0xa9d0, 0xa9d9), (0xa9f0, 0xa9f9), (0xaa50, 0xaa59), (0xabf0, 0xabf9)
  , (0xff10, 0xff19), (0x104a0, 0x104a9), (0x10d30, 0x10d39)
  , (0x11066, 0x1106f), (0x110f0, 0x110f9), (0x11136, 0x1113f)
  , (0x111d0, 0x111d9), (0x112f0, 0x112f9), (0x11450, 0x11459)
  , (0x114d0, 0x114d9), (0x11650, 0x11659), (0x116c0, 0x116c9)
  , (0x11730, 0x11739), (0x118e0, 0x118e9), (0x11950, 0x11959)
  , (0x11c50, 0x11c59), (0x11d50, 0x11d59), (0x11da0, 0x11da9)
  , (0x16a60, 0x16a69), (0x16ac0, 0x16ac9), (0x16b50, 0x16b59)
  , (0x1d7ce, 0x1d7ff), (0x1e140, 0x1e149), (0x1e2f0, 0x1e2f9)
  , (0x1e950, 0x1e959), (0x1fbf0, 0x1fbf9) ]

/-- Python `re`'s `\d` on a `str` pattern: any Unicode decimal digit,
i.e. any character of category Nd. -/
def isUnicodeDigit (c : Char) : Bool :=
  ndDigitRanges.any (fun r => r.1 ≤ c.toNat && c.toNat ≤ r.2)

/-- From `notification_service_sns.py`
`SimpleSNSNotificationService._validate_phone_number`: the check is
`re.fullmatch(r"^\+[1-9]\d{1,14}$", phone_number)` — a mandatory leading
`+`, one ASCII digit `1`–`9` (the class `[1-9]`), then 1 to 14 further
Unicode decimal digits (`\d` on a `str` pattern is Unicode-aware). -/
def validate_phone_number (phone_number : String) : Bool :=
  match phone_number.data with
  | '+' :: first :: rest =>
      ('1' ≤ first && first ≤ '9')
        && rest.all (fun c => isUnicodeDigit c)
        && (1 ≤ rest.length && rest.length ≤ 14)
  | _ => false

/-- Modelled from the spec's words (for comparison with
`validate_phone_number`, not from the source): "E.164: optional leading
`+`, 2–15 digits, no leading zero". -/
def spec_e164_shape (s : String) : Bool :=
  let ds := match s.data with
            | '+' :: rest => rest
            | other => other
  match ds with
  | [] => false
  | first :: _ =>
      ('1' ≤ first && first ≤ '9')
        && ds.all (fun c => c.isDigit)
        && (2 ≤ ds.length && ds.length ≤ 15)

/-- Microseconds per day; `datetime.max.time()` is 23:59:59.999999. -/
def usPerDay : Nat := 86400000000

/-- `datetime.combine(date, datetime.min.time())`: the first microsecond
of day `d` (days counted from the epoch). -/
def dayStart (d : Nat) : Nat := d * usPerDay

/-- `datetime.combine(date, datetime.max.time())`: the last microsecond
of day `d`. -/
def dayEnd (d : Nat) : Nat := d * usPerDay + (usPerDay - 1)

/-- The SQL filter applied by `get_account_statement`:
`Entry.account_id == account_id`, `Entry.created_at >= start_datetime`
when a start bound is given, `Entry.created_at <= end_datetime` when an
end bound is given. -/
def statementFilter (account_id : Nat) (start_dt end_dt : Option Nat)
    (e : Entry) : Bool :=
  e.account_id == account_id
    && (match start_dt with
        | some t => t ≤ e.created_at
        | none => true)
    && (match end_dt with
        | some t => e.created_at ≤ t
        | none => true)

/-- `ORDER BY Entry.created_at DESC`: newer (or equal) entries first. -/
def entryNewestFirst (a b : Entry) : Prop :=
  b.created_at ≤ a.created_at

instance : DecidableRel entryNewestFirst :=
  fun a b => Nat.decLe b.created_at a.created_at

instance : IsTotal Entry entryNewestFirst :=
  ⟨fun a b => le_total b.created_at a.created_at⟩

instance : IsTrans Entry entryNewestFirst :=
  ⟨fun _ _ _ hab hbc => le_trans hbc hab⟩

/-- From `accounts.py` `get_account_statement` (GET
`/accounts/{account_id}/statement`).

The handler: 404 when the account does not exist; translate
`start_date`/`end_date` (days) to the first/last microsecond of the
day; select the account's entries, apply both inclusive bounds, order
by `created_at` descending, then `offset(skip).limit(limit)`. -/
def get_account_statement (db : DB) (account_id : Nat)
    (start_date end_date : Option Nat) (skip limit : Nat) :
    Except HTTPError (List Entry) :=
  match findAccount db account_id with
  | none => .error ⟨404, "Account not found"⟩
  | some _ =>
    let start_dt := start_date.map dayStart
    let end_dt := end_date.map dayEnd
    let filtered := db.entries.filter (statementFilter account_id start_dt end_dt)
    let sorted := filtered.insertionSort entryNewestFirst
    .ok ((sorted.drop skip).take limit)

/-- From `accounts.py` `get_account_statement`'s query parameters:
`limit: int = Query(100, ge=1, le=200)`.  FastAPI applies the default
when the parameter is absent and rejects values outside `[1, 200]` with
a 422 validation error before the handler runs. -/
def get_account_statement_endpoint (db : DB) (account_id : Nat)
    (start_date end_date : Option Nat) (skip : Nat) (limit? : Option Nat) :
    Except HTTPError (List Entry) :=
  let limit := limit?.getD 100
  if limit < 1 || 200 < limit then
    .error ⟨422, "Input should be less than or equal to 200 and greater than or equal to 1"⟩
  else
    get_account_statement db account_id start_date end_date skip limit

/-- `ORDER BY Transaction.completed_at DESC NULLS LAST`. -/
def transactionNewestFirst (a b : Transaction) : Prop :=
  match a.completed_at, b.completed_at with
  | some x, some y => y ≤ x
  | some _, none => True
  | none, some _ => False
  | none, none => True

instance : DecidableRel transactionNewestFirst := fun a b => by
  unfold transactionNewestFirst
  cases a.completed_at <;> cases b.completed_at <;> infer_instance

/-- The id set built by `get_account_transactions`'s first query:
`select(Entry.transaction_id).where(Entry.account_id == account_id)
.distinct()` — the distinct `transaction_id` values (NULL included) of
the account's entries. -/
def relatedTransactionIds (db : DB) (account_id : Nat) : List (Option Nat) :=
  ((db.entries.filter (fun e => e.account_id == account_id)).map
    (fun e => e.transaction_id)).dedup

/-- From `accounts.py` `get_account_transactions` (GET
`/accounts/{account_id}/transactions`).

The handler: 404 when the account does not exist; collect the distinct
`transaction_id` values of the account's entries (NULL included, as in
`select(Entry.transaction_id).distinct()`); return `[]` when that list
is empty; otherwise select the transactions whose id is in the list,
apply the date bounds on `completed_at` (a row with NULL `completed_at`
fails a SQL comparison, and the handler's `completed_at is not None`
operand is a constant-true Python expression, not a SQL filter), apply
the optional type filter, order by `completed_at` descending with NULLs
last, then `offset(skip).limit(limit)`. -/
def get_account_transactions (db : DB) (account_id : Nat)
    (start_date end_date : Option Nat)
    (transaction_type : Option TransactionType) (skip limit : Nat) :
    Except HTTPError (List Transaction) :=
  match findAccount db account_id with
  | none => .error ⟨404, "Account not found"⟩
  | some _ =>
    let related_transaction_ids := relatedTransactionIds db account_id
    if related_transaction_ids.isEmpty then
      .ok []
    else
      let base := db.transactions.filter
        (fun t => related_transaction_ids.contains (some t.id))
      let afterStart :=
        match start_date with
        | some d =>
            base.filter (fun (t : Transaction) =>
              match t.completed_at with
              | some c => dayStart d ≤ c
              | none => false)
        | none => base
      let afterEnd :=
        match end_date with
        | some d =>
            afterStart.filter (fun (t : Transaction) =>
              match t.completed_at with
              | some c => c ≤ dayEnd d
              | none => false)
        | none => afterStart
      let afterType :=
        match transaction_type with
        | some ty => afterEnd.filter (fun (t : Transaction) => t.type == ty)
        | none => afterEnd
      let sorted := afterType.insertionSort transactionNewestFirst
      .ok ((sorted.drop skip).take limit)

/-! ### Helper lemmas about account lookup after balance mutation -/

theorem find?_mapBalance_self (l : List Account) (account_id : Nat) (f : Int → Int) :
    (mapBalance l account_id f).find? (fun a => a.id == account_id)
      = (l.find? (fun a => a.id == account_id)).map
          (fun a => { a with balance := f a.balance }) := by
  induction l with
  | nil => rfl
  | cons a l ih =>
    by_cases h : a.id = account_id
    · rw [mapBalance, List.map_cons, if_pos (by simpa using h),
        List.find?_cons_of_pos _ (by simpa using h),
        List.find?_cons_of_pos _ (by simpa using h)]
      rfl
    · rw [mapBalance, List.map_cons, if_neg (by simpa using h),
        List.find?_cons_of_neg _ (by simpa using h),
        List.find?_cons_of_neg _ (by simpa using h)]
      exact ih

theorem find?_mapBalance_other (l : List Account) (account_id other_id : Nat)
    (f : Int → Int) (h : other_id ≠ account_id) :
    (mapBalance l account_id f).find? (fun a => a.id == other_id)
      = l.find? (fun a => a.id == other_id) := by
  induction l with
  | nil => rfl
  | cons a l ih =>
    by_cases ha : a.id = account_id
    · have hb : ¬ a.id = other_id := fun e => h (e.symm.trans ha)
      rw [mapBalance, List.map_cons, if_pos (by simpa using ha),
        List.find?_cons_of_neg _ (by simpa using hb),
        List.find?_cons_of_neg _ (by simpa using hb)]
      exact ih
    · rw [mapBalance, List.map_cons, if_neg (by simpa using ha)]
      by_cases hb : a.id = other_id
      · rw [List.find?_cons_of_pos _ (by simpa using hb),
          List.find?_cons_of_pos _ (by simpa using hb)]
      · rw [List.find?_cons_of_neg _ (by simpa using hb),
          List.find?_cons_of_neg _ (by simpa using hb)]
        exact ih

/-! ### A concrete single-account database used by witnesses -/

/-- A one-account database: account 1 holds 100 USD. -/
def db5 : DB :=
  { accounts :=
      [ { id := 1, account_number := "ACC10000001", balance := 100,
          currency_code := .USD } ]
    transactions := []
    entries := []
    transfers := [] }

/-! ### C1 -/

/-- C1, counterexample to the claim as stated.  The claim quantifies over
every successful transfer; a self-transfer (`from_account_id =
to_account_id = 1`) of 30 out of a balance of 100 succeeds, yet the
source account's balance stays 100 instead of decreasing by 30. -/
theorem C1_counterexample_self_transfer :
    (create_new_transfer db5 1 1 30 none 1000 none none).1
      = .ok { id := 1, transaction_id := 1, from_account_id := 1,
              to_account_id := 1, amount := 30, currency_code := .USD }
    ∧ getBalance db5 1 = some 100
    ∧ getBalance (create_new_transfer db5 1 1 30 none 1000 none none).2 1
        = some 100
    ∧ (100 : Int) ≠ 100 - 30 := by
  refine ⟨rfl, rfl, rfl, by norm_num⟩

/-- C1 (amended: restricted to transfers whose source and destination
accounts are distinct): every successful such transfer creates exactly
two `Entry` rows, both referencing the transfer's `Transaction` — one
with amount `-amount` on the source account and one with amount
`+amount` on the destination account, summing to zero — while the source
balance decreases by `amount` and the destination balance increases by
`amount`. -/
theorem C1_transfer_double_entry
    (db : DB) (from_account_id to_account_id : Nat) (amount : Int)
    (description : Option String) (now : Nat)
    (from_account to_account : Account)
    (hfrom : findAccount db from_account_id = some from_account)
    (hto : findAccount db to_account_id = some to_account)
    (hne : from_account_id ≠ to_account_id)
    (hfunds : ¬ from_account.balance < amount)
    (hcur : from_account.currency_code = to_account.currency_code) :
    ∃ (transfer : Transfer) (committed : DB) (debit credit : Entry),
      create_new_transfer db from_account_id to_account_id amount description
          now none none
        = (.ok transfer, committed)
      ∧ committed.entries = db.entries ++ [debit, credit]
      ∧ debit.account_id = from_account_id
      ∧ debit.amount = -amount
      ∧ credit.account_id = to_account_id
      ∧ credit.amount = amount
      ∧ debit.amount + credit.amount = 0
      ∧ debit.transaction_id = some transfer.transaction_id
      ∧ credit.transaction_id = some transfer.transaction_id
      ∧ (∃ transaction : Transaction,
          committed.transactions = db.transactions ++ [transaction]
          ∧ transaction.id = transfer.transaction_id)
      ∧ getBalance committed from_account_id
          = some (from_account.balance - amount)
      ∧ getBalance committed to_account_id
          = some (to_account.balance + amount) := by
  unfold create_new_transfer
  simp only [hfrom, hto]
  rw [if_neg hfunds, if_neg (by simp [hcur])]
  refine ⟨_, _, _, _, rfl, rfl, rfl, rfl, rfl, rfl, by ring, rfl, rfl,
    ⟨_, rfl, rfl⟩, ?_, ?_⟩
  · unfold getBalance findAccount
    dsimp only
    rw [find?_mapBalance_other _ _ _ _ hne, find?_mapBalance_self]
    unfold findAccount at hfrom
    rw [hfrom]
    rfl
  · unfold getBalance findAccount
    dsimp only
    rw [find?_mapBalance_self,
      find?_mapBalance_other _ _ _ _ (fun e => hne e.symm)]
    unfold findAccount at hto
    rw [hto]
    rfl

/-- C1 witness scenario database: account 1 with balance 150 USD and
account 2 with balance 20 USD, as in the spec's transfer scenario. -/
def dbScenario : DB :=
  { accounts :=
      [ { id := 1, account_number := "ACC11111111", balance := 150,
          currency_code := .USD }
      , { id := 2, account_number := "ACC22222222", balance := 20,
          currency_code := .USD } ]
    transactions := []
    entries := []
    transfers := [] }

/-- C1 witness: the amended theorem applied to the spec's own scenario,
a transfer of 30 from account 1 (150 USD) to account 2 (20 USD). -/
theorem C1_transfer_double_entry_witness :
    ∃ (transfer : Transfer) (committed : DB) (debit credit : Entry),
      create_new_transfer dbScenario 1 2 30 none 1000 none none
        = (.ok transfer, committed)
      ∧ committed.entries = dbScenario.entries ++ [debit, credit]
      ∧ debit.account_id = 1
      ∧ debit.amount = -30
      ∧ credit.account_id = 2
      ∧ credit.amount = 30
      ∧ debit.amount + credit.amount = 0
      ∧ debit.transaction_id = some transfer.transaction_id
      ∧ credit.transaction_id = some transfer.transaction_id
      ∧ (∃ transaction : Transaction,
          committed.transactions = dbScenario.transactions ++ [transaction]
          ∧ transaction.id = transfer.transaction_id)
      ∧ getBalance committed 1 = some (150 - 30)
      ∧ getBalance committed 2 = some (20 + 30) :=
  C1_transfer_double_entry dbScenario 1 2 30 none 1000
    { id := 1, account_number := "ACC11111111", balance := 150,
      currency_code := .USD }
    { id := 2, account_number := "ACC22222222", balance := 20,
      currency_code := .USD }
    rfl rfl (by decide) (by norm_num) rfl

/-! ### C2 -/

/-- C2: a withdraw or transfer whose amount exceeds the (source)
account's current balance is rejected with the 400 insufficient-funds
client error, and the returned database state is exactly the input
state: no `Entry`, `Transaction`, or `Transfer` row and no balance
change is persisted. -/
theorem C2_insufficient_funds_rejected :
    (∀ (db : DB) (account_id : Nat) (amount : Int)
       (description : Option String) (now : Nat)
       (commitExn postCommitExn : Option String) (db_account : Account),
       findAccount db account_id = some db_account →
       db_account.balance < amount →
       withdraw_from_account db account_id amount description now
           commitExn postCommitExn
         = (.error ⟨400, "Insufficient funds"⟩, db))
    ∧ (∀ (db : DB) (from_account_id to_account_id : Nat) (amount : Int)
         (description : Option String) (now : Nat)
         (commitExn postCommitExn : Option String)
         (from_account to_account : Account),
         findAccount db from_account_id = some from_account →
         findAccount db to_account_id = some to_account →
         from_account.balance < amount →
         create_new_transfer db from_account_id to_account_id amount
             description now commitExn postCommitExn
           = (.error ⟨400, "Insufficient funds in source account"⟩, db)) := by
  constructor
  · intro db account_id amount description now cE pE db_account hfind hlt
    unfold withdraw_from_account
    simp only [hfind]
    rw [if_pos hlt]
  · intro db f t amount description now cE pE fa ta hf ht hlt
    unfold create_new_transfer
    simp only [hf, ht]
    rw [if_pos hlt]

/-- C2 witness: withdrawing 200 from account 1 (balance 150) and
transferring 30 out of account 2 (balance 20) are both rejected with the
state untouched. -/
theorem C2_insufficient_funds_rejected_witness :
    withdraw_from_account dbScenario 1 200 none 1000 none none
      = (.error ⟨400, "Insufficient funds"⟩, dbScenario)
    ∧ create_new_transfer dbScenario 2 1 30 none 1000 none none
      = (.error ⟨400, "Insufficient funds in source account"⟩, dbScenario) :=
  ⟨C2_insufficient_funds_rejected.1 dbScenario 1 200 none 1000 none none
      { id := 1, account_number := "ACC11111111", balance := 150,
        currency_code := .USD } rfl (by decide),
    C2_insufficient_funds_rejected.2 dbScenario 2 1 30 none 1000 none none
      { id := 2, account_number := "ACC22222222", balance := 20,
        currency_code := .USD }
      { id := 1, account_number := "ACC11111111", balance := 150,
        currency_code := .USD } rfl rfl (by decide)⟩

/-! ### C3 -/

/-- C3: when the atomic commit of a deposit, withdrawal, or transfer
fails (for any internal exception message), the returned state is
exactly the input state — no `Transaction`, `Entry`, or `Transfer` row
and no balance mutation survives — and the caller receives a 500 whose
detail is a fixed generic string that does not depend on the internal
exception. -/
theorem C3_commit_failure_rolls_back :
    (∀ (db : DB) (account_id : Nat) (amount : Int)
       (description : Option String) (now : Nat) (msg : String)
       (postCommitExn : Option String) (db_account : Account),
       findAccount db account_id = some db_account →
       deposit_to_account db account_id amount description now (some msg)
           postCommitExn
         = (.error
             ⟨500, "Error processing deposit: An internal error occurred."⟩,
            db))
    ∧ (∀ (db : DB) (account_id : Nat) (amount : Int)
         (description : Option String) (now : Nat) (msg : String)
         (postCommitExn : Option String) (db_account : Account),
         findAccount db account_id = some db_account →
         ¬ db_account.balance < amount →
         withdraw_from_account db account_id amount description now (some msg)
             postCommitExn
           = (.error
               ⟨500, "Error processing withdrawal: An internal error occurred."⟩,
              db))
    ∧ (∀ (db : DB) (from_account_id to_account_id : Nat) (amount : Int)
         (description : Option String) (now : Nat) (msg : String)
         (postCommitExn : Option String) (from_account to_account : Account),
         findAccount db from_account_id = some from_account →
         findAccount db to_account_id = some to_account →
         ¬ from_account.balance < amount →
         from_account.currency_code = to_account.currency_code →
         create_new_transfer db from_account_id to_account_id amount
             description now (some msg) postCommitExn
           = (.error
               ⟨500, "Error processing transfer: An internal error occurred."⟩,
              db)) := by
  refine ⟨?_, ?_, ?_⟩
  · intro db account_id amount description now msg pE db_account hfind
    unfold deposit_to_account
    simp only [hfind]
  · intro db account_id amount description now msg pE db_account hfind hge
    unfold withdraw_from_account
    simp only [hfind]
    rw [if_neg hge]
  · intro db f t amount description now msg pE fa ta hf ht hge hcur
    unfold create_new_transfer
    simp only [hf, ht]
    rw [if_neg hge, if_neg (by simp [hcur])]

/-- C3 witness: a failing commit during a deposit of 50 to account 1, a
withdrawal of 50 from account 1, and a transfer of 30 from account 1 to
account 2 each leave the state untouched and surface the generic 500. -/
theorem C3_commit_failure_rolls_back_witness :
    deposit_to_account dbScenario 1 50 none 1000 (some "connection lost") none
      = (.error ⟨500, "Error processing deposit: An internal error occurred."⟩,
         dbScenario)
    ∧ withdraw_from_account dbScenario 1 50 none 1000
        (some "connection lost") none
      = (.error
          ⟨500, "Error processing withdrawal: An internal error occurred."⟩,
         dbScenario)
    ∧ create_new_transfer dbScenario 1 2 30 none 1000
        (some "connection lost") none
      = (.error
          ⟨500, "Error processing transfer: An internal error occurred."⟩,
         dbScenario) :=
  ⟨C3_commit_failure_rolls_back.1 dbScenario 1 50 none 1000
      "connection lost" none
      { id := 1, account_number := "ACC11111111", balance := 150,
        currency_code := .USD } rfl,
    C3_commit_failure_rolls_back.2.1 dbScenario 1 50 none 1000
      "connection lost" none
      { id := 1, account_number := "ACC11111111", balance := 150,
        currency_code := .USD } rfl (by decide),
    C3_commit_failure_rolls_back.2.2 dbScenario 1 2 30 none 1000
      "connection lost" none
      { id := 1, account_number := "ACC11111111", balance := 150,
        currency_code := .USD }
      { id := 2, account_number := "ACC22222222", balance := 20,
        currency_code := .USD } rfl rfl (by decide) rfl⟩

/-! ### C4 -/

/-- C4: a transfer between two existing accounts whose source balance
covers the amount but whose currency codes differ is rejected with the
400 currency-mismatch client error, and the returned state is exactly
the input state — no `Transaction`, `Transfer`, or `Entry` is created
and neither balance changes. -/
theorem C4_currency_mismatch_rejected
    (db : DB) (from_account_id to_account_id : Nat) (amount : Int)
    (description : Option String) (now : Nat)
    (commitExn postCommitExn : Option String)
    (from_account to_account : Account)
    (hfrom : findAccount db from_account_id = some from_account)
    (hto : findAccount db to_account_id = some to_account)
    (hfunds : ¬ from_account.balance < amount)
    (hcur : from_account.currency_code ≠ to_account.currency_code) :
    create_new_transfer db from_account_id to_account_id amount description
        now commitExn postCommitExn
      = (.error
          ⟨400, "Transfers between different currencies not currently supported"⟩,
         db) := by
  unfold create_new_transfer
  simp only [hfrom, hto]
  rw [if_neg hfunds, if_pos hcur]

/-- A three-account database: accounts 1 and 2 in USD, account 3 in
EUR. -/
def dbThree : DB :=
  { accounts :=
      [ { id := 1, account_number := "ACC11111111", balance := 150,
          currency_code := .USD }
      , { id := 2, account_number := "ACC22222222", balance := 20,
          currency_code := .USD }
      , { id := 3, account_number := "ACC33333333", balance := 5,
          currency_code := .EUR } ]
    transactions := []
    entries := []
    transfers := [] }

/-- C4 witness: a transfer of 30 from USD account 1 to EUR account 3 is
rejected with the currency-mismatch error and no state change. -/
theorem C4_currency_mismatch_rejected_witness :
    create_new_transfer dbThree 1 3 30 none 1000 none none
      = (.error
          ⟨400, "Transfers between different currencies not currently supported"⟩,
         dbThree) :=
  C4_currency_mismatch_rejected dbThree 1 3 30 none 1000 none none
    { id := 1, account_number := "ACC11111111", balance := 150,
      currency_code := .USD }
    { id := 3, account_number := "ACC33333333", balance := 5,
      currency_code := .EUR }
    rfl rfl (by decide) (by decide)

/-! ### C5 -/

/-- C5, evidence of the code bug: request validation accepts a deposit
amount of −50 (`DepositRequest` carries no positivity constraint, unlike
`NewTransferRequest`), and the deposit handler then creates a COMPLETED
`Transaction` and an `Entry` of −50 and reduces the balance of account 1
from 100 to 50 — instead of rejecting the request before any mutation as
the spec requires. -/
theorem C5_negative_deposit_accepted :
    DepositRequest_amount_ok (-50) = true
    ∧ NewTransferRequest_amount_ok (-50) = false
    ∧ (deposit_to_account db5 1 (-50) none 1000 none none).1
        = .ok { id := 1, type := .DEPOSIT, status := .COMPLETED,
                description := "Deposit to account ACC10000001",
                initiated_at := 1000, completed_at := some 1000 }
    ∧ getBalance db5 1 = some 100
    ∧ getBalance (deposit_to_account db5 1 (-50) none 1000 none none).2 1
        = some 50
    ∧ (deposit_to_account db5 1 (-50) none 1000 none none).2.entries
        = [ { id := 1, account_id := 1, amount := -50, currency_code := .USD,
              transaction_id := some 1, created_at := 1000 } ] := by
  exact ⟨rfl, by decide, rfl, rfl, rfl, rfl⟩

/-! ### C6 -/

/-- C6, counterexample to the claim as stated: a deposit of 50 to
account 1 commits (the persisted balance becomes 150 and a transaction
row is persisted), yet because the post-commit refresh/notification
section raises, the handler's `except` clause surfaces a 500 internal
error to the caller instead of returning the completed transaction. -/
theorem C6_counterexample_notification_exception :
    (deposit_to_account db5 1 50 none 1000 none
        (some "notification failure")).1
      = .error ⟨500, "Error processing deposit: An internal error occurred."⟩
    ∧ getBalance (deposit_to_account db5 1 50 none 1000 none
        (some "notification failure")).2 1 = some 150
    ∧ (deposit_to_account db5 1 50 none 1000 none
        (some "notification failure")).2.transactions ≠ [] := by
  exact ⟨rfl, rfl, by decide⟩

/-- C6 (amended): once the atomic unit of a deposit, withdrawal, or
transfer has committed, the persisted state is identical whether or not
the post-commit refresh/notification section raises; but the successful
result reaches the caller only when that section does not raise — when
it raises, the handler's `except` clause surfaces a generic 500
internal error in place of the successful result (the committed ledger
state still survives, since rollback after commit undoes nothing). -/
theorem C6_post_commit_exception_surfaced :
    (∀ (db : DB) (account_id : Nat) (amount : Int)
       (description : Option String) (now : Nat) (msg : String)
       (r : Transaction),
       (deposit_to_account db account_id amount description now none none).1
         = .ok r →
       (deposit_to_account db account_id amount description now none
           (some msg)).1
         = .error
             ⟨500, "Error processing deposit: An internal error occurred."⟩
       ∧ (deposit_to_account db account_id amount description now none
             (some msg)).2
         = (deposit_to_account db account_id amount description now none
             none).2)
    ∧ (∀ (db : DB) (account_id : Nat) (amount : Int)
         (description : Option String) (now : Nat) (msg : String)
         (r : Transaction),
         (withdraw_from_account db account_id amount description now
             none none).1 = .ok r →
         (withdraw_from_account db account_id amount description now none
             (some msg)).1
           = .error
               ⟨500, "Error processing withdrawal: An internal error occurred."⟩
         ∧ (withdraw_from_account db account_id amount description now none
               (some msg)).2
           = (withdraw_from_account db account_id amount description now none
               none).2)
    ∧ (∀ (db : DB) (from_account_id to_account_id : Nat) (amount : Int)
         (description : Option String) (now : Nat) (msg : String)
         (r : Transfer),
         (create_new_transfer db from_account_id to_account_id amount
             description now none none).1 = .ok r →
         (create_new_transfer db from_account_id to_account_id amount
             description now none (some msg)).1
           = .error
               ⟨500, "Error processing transfer: An internal error occurred."⟩
         ∧ (create_new_transfer db from_account_id to_account_id amount
               description now none (some msg)).2
           = (create_new_transfer db from_account_id to_account_id amount
               description now none none).2) := by
  refine ⟨?_, ?_, ?_⟩
  · intro db account_id amount description now msg r hok
    cases hfa : findAccount db account_id with
    | none =>
      unfold deposit_to_account at hok
      simp [hfa] at hok
    | some acct =>
      unfold deposit_to_account
      simp only [hfa]
      constructor <;> trivial
  · intro db account_id amount description now msg r hok
    cases hfa : findAccount db account_id with
    | none =>
      unfold withdraw_from_account at hok
      simp [hfa] at hok
    | some acct =>
      by_cases hlt : acct.balance < amount
      · unfold withdraw_from_account at hok
        simp [hfa, if_pos hlt] at hok
      · unfold withdraw_from_account
        simp only [hfa, if_neg hlt]
        constructor <;> trivial
  · intro db from_account_id to_account_id amount description now msg r hok
    cases hfa : findAccount db from_account_id with
    | none =>
      unfold create_new_transfer at hok
      simp [hfa] at hok
    | some fa =>
      cases hta : findAccount db to_account_id with
      | none =>
        unfold create_new_transfer at hok
        simp [hfa, hta] at hok
      | some ta =>
        by_cases hlt : fa.balance < amount
        · unfold create_new_transfer at hok
          simp [hfa, hta, if_pos hlt] at hok
        · by_cases hcur : fa.currency_code ≠ ta.currency_code
          · unfold create_new_transfer at hok
            simp [hfa, hta, if_neg hlt, if_pos hcur] at hok
          · unfold create_new_transfer
            simp only [hfa, hta, if_neg hlt, if_neg hcur]
            constructor <;> trivial

/-- C6 witness: a deposit of 50 to account 1 whose notification section
raises surfaces the generic 500 while persisting the same state as the
success case. -/
theorem C6_post_commit_exception_surfaced_witness :
    (deposit_to_account db5 1 50 none 1000 none (some "boom")).1
      = .error ⟨500, "Error processing deposit: An internal error occurred."⟩
    ∧ (deposit_to_account db5 1 50 none 1000 none (some "boom")).2
      = (deposit_to_account db5 1 50 none 1000 none none).2 :=
  C6_post_commit_exception_surfaced.1 db5 1 50 none 1000 "boom"
    { id := 1, type := .DEPOSIT, status := .COMPLETED,
      description := "Deposit to account ACC10000001",
      initiated_at := 1000, completed_at := some 1000 } rfl

/-! ### C10 -/

/-- C10: a transfer whose source and destination ids are equal, with the
account existing, `0 < amount`, and `amount ≤ balance`, passes request
validation and succeeds — the currency check trivially passes — and the
final balance equals the initial balance, while two opposite-signed
entries on that account (sharing the transfer's transaction) and one
`Transfer` record are still created. -/
theorem C10_self_transfer_preserves_balance
    (db : DB) (account_id : Nat) (amount : Int) (description : Option String)
    (now : Nat) (acct : Account)
    (hfind : findAccount db account_id = some acct)
    (hpos : 0 < amount)
    (hfunds : amount ≤ acct.balance) :
    NewTransferRequest_amount_ok amount = true
    ∧ ∃ (transfer : Transfer) (committed : DB) (debit credit : Entry),
        create_new_transfer db account_id account_id amount description now
            none none
          = (.ok transfer, committed)
        ∧ transfer.from_account_id = account_id
        ∧ transfer.to_account_id = account_id
        ∧ committed.transfers = db.transfers ++ [transfer]
        ∧ committed.entries = db.entries ++ [debit, credit]
        ∧ debit.account_id = account_id
        ∧ debit.amount = -amount
        ∧ credit.account_id = account_id
        ∧ credit.amount = amount
        ∧ debit.transaction_id = some transfer.transaction_id
        ∧ credit.transaction_id = some transfer.transaction_id
        ∧ getBalance committed account_id = some acct.balance := by
  constructor
  · simp [NewTransferRequest_amount_ok, hpos]
  · unfold create_new_transfer
    simp only [hfind]
    rw [if_neg (not_lt.mpr hfunds), if_neg (by simp)]
    refine ⟨_, _, _, _, rfl, rfl, rfl, rfl, rfl, rfl, rfl, rfl, rfl, rfl,
      rfl, ?_⟩
    unfold getBalance findAccount
    dsimp only
    rw [find?_mapBalance_self, find?_mapBalance_self]
    unfold findAccount at hfind
    rw [hfind]
    simp

/-- C10 witness: a self-transfer of 30 on account 1 (balance 100)
succeeds and leaves the balance at 100. -/
theorem C10_self_transfer_preserves_balance_witness :
    NewTransferRequest_amount_ok 30 = true
    ∧ ∃ (transfer : Transfer) (committed : DB) (debit credit : Entry),
        create_new_transfer db5 1 1 30 none 1000 none none
          = (.ok transfer, committed)
        ∧ transfer.from_account_id = 1
        ∧ transfer.to_account_id = 1
        ∧ committed.transfers = db5.transfers ++ [transfer]
        ∧ committed.entries = db5.entries ++ [debit, credit]
        ∧ debit.account_id = 1
        ∧ debit.amount = -30
        ∧ credit.account_id = 1
        ∧ credit.amount = 30
        ∧ debit.transaction_id = some transfer.transaction_id
        ∧ credit.transaction_id = some transfer.transaction_id
        ∧ getBalance committed 1 = some 100 :=
  C10_self_transfer_preserves_balance db5 1 30 none 1000
    { id := 1, account_number := "ACC10000001", balance := 100,
      currency_code := .USD }
    rfl (by decide) (by decide)

/-! ### C7 -/

/-- C7, counterexample to the claim as stated: the string `"12345"` has
the spec's E.164 shape (no `+`, five digits, no leading zero), yet the
code's check `re.fullmatch(r"^\+[1-9]\d{1,14}$", ...)` rejects it,
because the regex makes the leading `+` mandatory. -/
theorem C7_counterexample_plus_optional :
    spec_e164_shape "12345" = true
    ∧ validate_phone_number "12345" = false := by
  exact ⟨by decide, by decide⟩

/-- C7 (amended: the leading `+` is mandatory, and the digits after the
first are any Unicode decimal digits): the phone-number check accepts
exactly the strings consisting of a `+`, then a first ASCII digit in
`1`–`9`, then 1 to 14 further Unicode decimal digits (category Nd) —
2–15 digits in total, no leading zero; every other string is
rejected. -/
theorem C7_validate_phone_number_characterization (s : String) :
    validate_phone_number s = true
      ↔ ∃ (first : Char) (rest : List Char),
          s.data = '+' :: first :: rest
          ∧ '1' ≤ first ∧ first ≤ '9'
          ∧ (∀ c ∈ rest, isUnicodeDigit c = true)
          ∧ 1 ≤ rest.length ∧ rest.length ≤ 14 := by
  unfold validate_phone_number
  cases h : s.data with
  | nil => simp
  | cons c cs =>
    cases cs with
    | nil =>
      by_cases hc : c = '+'
      · subst hc; simp
      · simp [hc]
    | cons first rest =>
      by_cases hc : c = '+'
      · subst hc
        simp [List.all_eq_true, and_assoc]
      · simp [hc]

/-- C7 witness: the amended characterization applied to two concrete
numbers the check accepts — the ASCII `+12223334444`, and `+1٢`, whose
second digit is the Arabic-Indic two U+0662 (a non-ASCII Nd digit that
Python's Unicode-aware `\d` matches). -/
theorem C7_validate_phone_number_characterization_witness :
    validate_phone_number "+12223334444" = true
    ∧ validate_phone_number "+1٢" = true :=
  ⟨(C7_validate_phone_number_characterization "+12223334444").mpr
      ⟨'1', ['2', '2', '2', '3', '3', '3', '4', '4', '4', '4'],
        by decide, by decide, by decide, by decide, by decide, by decide⟩,
    (C7_validate_phone_number_characterization "+1٢").mpr
      ⟨'1', ['٢'],
        by decide, by decide, by decide, by decide, by decide, by decide⟩⟩

/-! ### C8 -/

/-- C8: for an existing account, with no date or type filter, no skip,
and a limit large enough not to truncate, the transaction-history query
returns a list containing a transaction `T` if and only if the account
has at least one entry referencing `T`; and when the account has no
entries at all the query returns the empty collection (not an error),
whatever the filters. -/
theorem C8_transaction_history_membership :
    (∀ (db : DB) (account_id : Nat) (acct : Account) (limit : Nat),
       findAccount db account_id = some acct →
       db.transactions.length ≤ limit →
       ∃ l, get_account_transactions db account_id none none none 0 limit
              = .ok l
         ∧ ∀ T : Transaction,
             T ∈ l ↔ T ∈ db.transactions
               ∧ ∃ e ∈ db.entries, e.account_id = account_id
                   ∧ e.transaction_id = some T.id)
    ∧ (∀ (db : DB) (account_id : Nat) (acct : Account)
         (start_date end_date : Option Nat)
         (transaction_type : Option TransactionType) (skip limit : Nat),
         findAccount db account_id = some acct →
         (∀ e ∈ db.entries, e.account_id ≠ account_id) →
         get_account_transactions db account_id start_date end_date
             transaction_type skip limit
           = .ok []) := by
  constructor
  · intro db account_id acct limit hfind hlim
    by_cases hrel : (relatedTransactionIds db account_id).isEmpty
    · refine ⟨[], ?_, ?_⟩
      · unfold get_account_transactions
        simp only [hfind, hrel, if_true]
      · intro T
        simp only [List.not_mem_nil, false_iff]
        rintro ⟨-, e, he, hacct, htx⟩
        have : (some T.id) ∈ relatedTransactionIds db account_id := by
          unfold relatedTransactionIds
          rw [List.mem_dedup, List.mem_map]
          exact ⟨e, List.mem_filter.mpr ⟨he, by simpa using hacct⟩, htx⟩
        rw [List.isEmpty_iff] at hrel
        simp [hrel] at this
    · refine ⟨(((db.transactions.filter (fun (t : Transaction) =>
          (relatedTransactionIds db account_id).contains
            (some t.id))).insertionSort
          transactionNewestFirst).drop 0).take limit, ?_, ?_⟩
      · unfold get_account_transactions
        simp only [hfind]
        rw [if_neg hrel]
      · intro T
        have hlen :
            ((db.transactions.filter (fun (t : Transaction) =>
                (relatedTransactionIds db account_id).contains
                  (some t.id))).insertionSort transactionNewestFirst).length
              ≤ limit := by
          rw [(List.perm_insertionSort transactionNewestFirst _).length_eq]
          exact le_trans (List.length_filter_le _ _) hlim
        rw [List.drop_zero, List.take_of_length_le hlen,
          List.mem_insertionSort, List.mem_filter]
        constructor
        · rintro ⟨hT, hc⟩
          refine ⟨hT, ?_⟩
          have : (some T.id) ∈ relatedTransactionIds db account_id := by
            simpa [List.contains, List.elem_iff] using hc
          unfold relatedTransactionIds at this
          rw [List.mem_dedup, List.mem_map] at this
          obtain ⟨e, hef, htx⟩ := this
          rw [List.mem_filter] at hef
          exact ⟨e, hef.1, by simpa using hef.2, htx⟩
        · rintro ⟨hT, e, he, hacct, htx⟩
          refine ⟨hT, ?_⟩
          have : (some T.id) ∈ relatedTransactionIds db account_id := by
            unfold relatedTransactionIds
            rw [List.mem_dedup, List.mem_map]
            exact ⟨e, List.mem_filter.mpr ⟨he, by simpa using hacct⟩, htx⟩
          simpa [List.contains, List.elem_iff] using this
  · intro db account_id acct start_date end_date transaction_type skip limit
      hfind hnone
    have hrelnil : relatedTransactionIds db account_id = [] := by
      unfold relatedTransactionIds
      rw [List.dedup_eq_nil, List.map_eq_nil_iff, List.filter_eq_nil_iff]
      intro e he
      simpa using hnone e he
    unfold get_account_transactions
    simp only [hfind, hrelnil, List.isEmpty_nil, if_true]

/-- C8 witness: in a database where account 1 has entries referencing
transactions 1 and 3 (and transaction 2 is referenced only by account
2's entry), the history of account 1 contains exactly transactions 1
and 3. -/
def dbHistory : DB :=
  { accounts :=
      [ { id := 1, account_number := "A", balance := 0,
          currency_code := .USD }
      , { id := 2, account_number := "B", balance := 0,
          currency_code := .USD } ]
    transactions :=
      [ { id := 1, type := .DEPOSIT, status := .COMPLETED, description := "",
          initiated_at := 0, completed_at := some 5 }
      , { id := 2, type := .TRANSFER, status := .PENDING, description := "",
          initiated_at := 0, completed_at := none }
      , { id := 3, type := .WITHDRAWAL, status := .COMPLETED,
          description := "", initiated_at := 0, completed_at := some 9 } ]
    entries :=
      [ { id := 1, account_id := 1, amount := 10, currency_code := .USD,
          transaction_id := some 1, created_at := 5 }
      , { id := 2, account_id := 1, amount := -3, currency_code := .USD,
          transaction_id := some 3, created_at := 9 }
      , { id := 3, account_id := 2, amount := 7, currency_code := .USD,
          transaction_id := some 2, created_at := 7 } ]
    transfers := [] }

theorem C8_transaction_history_membership_witness :
    ∃ l, get_account_transactions dbHistory 1 none none none 0 100 = .ok l
      ∧ ∀ T : Transaction,
          T ∈ l ↔ T ∈ dbHistory.transactions
            ∧ ∃ e ∈ dbHistory.entries, e.account_id = 1
                ∧ e.transaction_id = some T.id :=
  C8_transaction_history_membership.1 dbHistory 1
    { id := 1, account_number := "A", balance := 0, currency_code := .USD }
    100 rfl (by decide)

/-! ### C9 -/

theorem statementFilter_iff (account_id : Nat) (sdt edt : Option Nat)
    (e : Entry) :
    statementFilter account_id sdt edt e = true
      ↔ e.account_id = account_id
        ∧ (∀ t, sdt = some t → t ≤ e.created_at)
        ∧ (∀ t, edt = some t → e.created_at ≤ t) := by
  unfold statementFilter
  cases sdt <;> cases edt <;> simp [and_assoc]

theorem forall_map_some (o : Option Nat) (f : Nat → Nat) (P : Nat → Prop) :
    (∀ t, o.map f = some t → P t) ↔ (∀ d, o = some d → P (f d)) := by
  cases o <;> simp

/-- C9: for an existing account the statement query returns the
account's entries whose creation timestamp lies within the inclusive
whole-day range — every returned entry belongs to the account and
respects both day bounds, the result is ordered newest-first, and with
no skip and a non-truncating limit an entry is returned exactly when it
matches; the endpoint's `limit` parameter defaults to 100, is rejected
with a 422 validation error outside `[1, 200]`, and is passed through
unchanged inside `[1, 200]`. -/
theorem C9_statement_query :
    (∀ (db : DB) (account_id : Nat) (acct : Account)
       (start_date end_date : Option Nat) (skip limit : Nat),
       findAccount db account_id = some acct →
       ∃ l, get_account_statement db account_id start_date end_date skip limit
              = .ok l
         ∧ (∀ e ∈ l, e.account_id = account_id
              ∧ (∀ d, start_date = some d → dayStart d ≤ e.created_at)
              ∧ (∀ d, end_date = some d → e.created_at ≤ dayEnd d))
         ∧ l.Sorted entryNewestFirst
         ∧ (skip = 0 → db.entries.length ≤ limit →
             ∀ e : Entry, e ∈ l ↔ e ∈ db.entries
               ∧ e.account_id = account_id
               ∧ (∀ d, start_date = some d → dayStart d ≤ e.created_at)
               ∧ (∀ d, end_date = some d → e.created_at ≤ dayEnd d)))
    ∧ (∀ (db : DB) (account_id : Nat) (start_date end_date : Option Nat)
         (skip : Nat),
         get_account_statement_endpoint db account_id start_date end_date skip
             none
           = get_account_statement db account_id start_date end_date skip 100)
    ∧ (∀ (db : DB) (account_id : Nat) (start_date end_date : Option Nat)
         (skip limit : Nat),
         limit < 1 ∨ 200 < limit →
         get_account_statement_endpoint db account_id start_date end_date skip
             (some limit)
           = .error
               ⟨422, "Input should be less than or equal to 200 and greater than or equal to 1"⟩)
    ∧ (∀ (db : DB) (account_id : Nat) (start_date end_date : Option Nat)
         (skip limit : Nat),
         1 ≤ limit → limit ≤ 200 →
         get_account_statement_endpoint db account_id start_date end_date skip
             (some limit)
           = get_account_statement db account_id start_date end_date skip
               limit) := by
  refine ⟨?_, ?_, ?_, ?_⟩
  · intro db account_id acct start_date end_date skip limit hfind
    refine ⟨(((db.entries.filter (statementFilter account_id
        (start_date.map dayStart) (end_date.map dayEnd))).insertionSort
        entryNewestFirst).drop skip).take limit, ?_, ?_, ?_, ?_⟩
    · unfold get_account_statement
      simp only [hfind]
    · intro e he
      have hmem : e ∈ db.entries.filter (statementFilter account_id
          (start_date.map dayStart) (end_date.map dayEnd)) := by
        rw [← List.mem_insertionSort entryNewestFirst]
        exact List.drop_subset _ _ (List.take_subset _ _ he)
      have hf := (List.mem_filter.mp hmem).2
      rw [statementFilter_iff] at hf
      exact ⟨hf.1, (forall_map_some _ _ _).mp hf.2.1,
        (forall_map_some _ _ _).mp hf.2.2⟩
    · have hs : (List.insertionSort entryNewestFirst
          (db.entries.filter (statementFilter account_id
            (start_date.map dayStart) (end_date.map dayEnd)))).Sorted
          entryNewestFirst :=
        List.sorted_insertionSort entryNewestFirst _
      exact hs.sublist ((List.take_sublist _ _).trans (List.drop_sublist _ _))
    · rintro rfl hlim e
      have hlen : ((db.entries.filter (statementFilter account_id
          (start_date.map dayStart) (end_date.map dayEnd))).insertionSort
          entryNewestFirst).length ≤ limit := by
        rw [(List.perm_insertionSort entryNewestFirst _).length_eq]
        exact le_trans (List.length_filter_le _ _) hlim
      rw [List.drop_zero, List.take_of_length_le hlen,
        List.mem_insertionSort, List.mem_filter, statementFilter_iff,
        forall_map_some, forall_map_some]
  · intro db account_id start_date end_date skip
    rfl
  · intro db account_id start_date end_date skip limit h
    unfold get_account_statement_endpoint
    rcases h with h | h <;> simp [Option.getD, h]
  · intro db account_id start_date end_date skip limit h1 h2
    unfold get_account_statement_endpoint
    simp [Option.getD, Nat.not_lt.mpr h1, Nat.not_lt.mpr h2]

/-- C9 witness: the theorem's parts applied to the concrete history
database — the statement of account 1 over days 0 to 0, the default
limit, a rejected limit of 300, and an accepted limit of 50. -/
theorem C9_statement_query_witness :
    (∃ l, get_account_statement dbHistory 1 (some 0) (some 0) 0 100 = .ok l
      ∧ (∀ e ∈ l, e.account_id = 1
           ∧ (∀ d, (some 0 : Option Nat) = some d → dayStart d ≤ e.created_at)
           ∧ (∀ d, (some 0 : Option Nat) = some d → e.created_at ≤ dayEnd d))
      ∧ l.Sorted entryNewestFirst
      ∧ (0 = 0 → dbHistory.entries.length ≤ 100 →
          ∀ e : Entry, e ∈ l ↔ e ∈ dbHistory.entries
            ∧ e.account_id = 1
            ∧ (∀ d, (some 0 : Option Nat) = some d → dayStart d ≤ e.created_at)
            ∧ (∀ d, (some 0 : Option Nat) = some d → e.created_at ≤ dayEnd d)))
    ∧ get_account_statement_endpoint dbHistory 1 none none 0 none
        = get_account_statement dbHistory 1 none none 0 100
    ∧ get_account_statement_endpoint dbHistory 1 none none 0 (some 300)
        = .error
            ⟨422, "Input should be less than or equal to 200 and greater than or equal to 1"⟩
    ∧ get_account_statement_endpoint dbHistory 1 none none 0 (some 50)
        = get_account_statement dbHistory 1 none none 0 50 :=
  ⟨C9_statement_query.1 dbHistory 1
      { id := 1, account_number := "A", balance := 0, currency_code := .USD }
      (some 0) (some 0) 0 100 rfl,
    C9_statement_query.2.1 dbHistory 1 none none 0,
    C9_statement_query.2.2.1 dbHistory 1 none none 0 300 (Or.inr (by decide)),
    C9_statement_query.2.2.2 dbHistory 1 none none 0 50 (by decide)
      (by decide)⟩

end OrbitBank
